import Mathlib

/-!
Shallow embedding of `src/sistema_inventario.py`, a small object-oriented
inventory system (classes `Producto` and `Inventario`), together with
theorems settling the specification claims about it.

Modelling conventions:
* Python runtime values that can reach the validated entry points are
  modelled by `PyVal` (strings, ints, floats, booleans, anything else).
* Python floats are modelled exactly as rationals (`Rat`); `float(x)` on an
  int is modelled as the exact coercion.  Every equation proved about
  prices is an equation between identical arithmetic expressions, so it is
  insensitive to this choice.
* Exceptions `TypeError` / `ValueError` / `KeyError` are modelled by
  `PyErr`; a method that can raise returns `Except PyErr _`, and a mutating
  method on `Producto` returns the object state paired with the raised
  exception, if any, so that atomicity on error is expressible.
* `isinstance(x, (int, float)) and not isinstance(x, bool)` holds exactly
  for the `vint` / `vfloat` constructors (Python `bool` is a subclass of
  `int`, hence the explicit exclusion in the source); this is captured by
  `PyVal.toNum`.  Likewise `isinstance(x, int) and not isinstance(x, bool)`
  is captured by `PyVal.toIntVal`.
-/

/-- Python runtime values that can be passed to the validated entry points
of the inventory system. -/
inductive PyVal where
  | vstr (s : String)
  | vint (n : Int)
  | vfloat (q : Rat)
  | vbool (b : Bool)
  | vother
  deriving DecidableEq

/-- Exceptions raised by the inventory system: `TypeError`, `ValueError`,
`KeyError` (the spec calls them InvalidType, InvalidValue, NotFound or
DuplicateKey according to context). -/
inductive PyErr where
  | typeError
  | valueError
  | keyError
  deriving DecidableEq

/-- Python `str.strip()` on the underlying character list: drop whitespace
from the front, then from the back. -/
def stripChars (l : List Char) : List Char :=
  (l.dropWhile Char.isWhitespace).rdropWhile Char.isWhitespace

/-- Python `str.strip()`. -/
def pystrip (s : String) : String :=
  ⟨stripChars s.data⟩

/-- Python `str.lower()` (ASCII case folding, which covers every name used
by the program and its spec). -/
def pylower (s : String) : String :=
  ⟨s.data.map Char.toLower⟩

/-- Value of `x` as a Python number when
`isinstance(x, (int, float)) and not isinstance(x, bool)` holds;
`none` when that check fails. -/
def PyVal.toNum : PyVal → Option Rat
  | .vint n => some (n : Rat)
  | .vfloat q => some q
  | _ => none

/-- Value of `x` as a Python int when
`isinstance(x, int) and not isinstance(x, bool)` holds; `none` when that
check fails. -/
def PyVal.toIntVal : PyVal → Option Int
  | .vint n => some n
  | _ => none

/-- State of a `Producto` object: fields `_nombre`, `_precio`, `_cantidad`. -/
structure Producto where
  nombre : String
  precio : Rat
  cantidad : Int
  deriving DecidableEq

/-- The constructor `Producto.__init__` (lines 19-47): validates the name
(string with non-empty strip), the price (non-boolean number `>= 0`) and
the quantity (non-boolean int `>= 0`), raising `TypeError` / `ValueError`
in source order, and stores the stripped name, the price as float and the
quantity. -/
def Producto.init (nombre precio cantidad : PyVal) : Except PyErr Producto :=
  match nombre with
  | .vstr s =>
    let nombre_normalizado := pystrip s
    if nombre_normalizado = "" then .error .valueError
    else
      match PyVal.toNum precio with
      | none => .error .typeError
      | some pr =>
        if pr < 0 then .error .valueError
        else
          match PyVal.toIntVal cantidad with
          | none => .error .typeError
          | some n =>
            if n < 0 then .error .valueError
            else .ok ⟨nombre_normalizado, pr, n⟩
  | _ => .error .typeError

/-- The method `Producto.actualizar_precio` (lines 61-70): the result is
the state of `self` after the call together with the exception raised, if
any.  The source raises before any assignment, so on error the state is
returned unchanged. -/
def Producto.actualizar_precio (p : Producto) (nuevo_precio : PyVal) :
    Producto × Option PyErr :=
  match PyVal.toNum nuevo_precio with
  | none => (p, some .typeError)
  | some r =>
    if r ≤ 0 then (p, some .valueError)
    else (⟨p.nombre, r, p.cantidad⟩, none)

/-- The method `Producto.actualizar_cantidad` (lines 72-78): result is the
state of `self` after the call together with the exception raised, if any. -/
def Producto.actualizar_cantidad (p : Producto) (nueva_cantidad : PyVal) :
    Producto × Option PyErr :=
  match PyVal.toIntVal nueva_cantidad with
  | none => (p, some .typeError)
  | some n =>
    if n < 0 then (p, some .valueError)
    else (⟨p.nombre, p.precio, n⟩, none)

/-- The method `Producto.calcular_valor_total` (lines 80-82):
`self._precio * self._cantidad`. -/
def Producto.calcular_valor_total (p : Producto) : Rat :=
  p.precio * (p.cantidad : Rat)

/-- Argument of `Inventario.agregar_producto`: either a `Producto` instance
or any other Python object. -/
inductive PyObj where
  | prod (p : Producto)
  | other
  deriving DecidableEq

/-- State of an `Inventario` object: the field `_productos`, an ordered
list of products. -/
structure Inventario where
  productos : List Producto
  deriving DecidableEq

/-- The method `Inventario.buscar_producto` (lines 114-128): type-checks
the argument, strips it, rejects an empty result, and returns the first
product (in insertion order) whose lowered name equals the lowered
normalized argument, raising `KeyError` when there is none. -/
def Inventario.buscar_producto (inv : Inventario) (nombre : PyVal) :
    Except PyErr Producto :=
  match nombre with
  | .vstr s =>
    let nombre_normalizado := pystrip s
    if nombre_normalizado = "" then .error .valueError
    else
      match inv.productos.find?
          (fun producto => pylower producto.nombre == pylower nombre_normalizado) with
      | some producto => .ok producto
      | none => .error .keyError
  | _ => .error .typeError

/-- The method `Inventario.agregar_producto` (lines 97-112): rejects
non-`Producto` arguments with `TypeError`, then calls `buscar_producto`
on the product name; only `KeyError` is caught (and leads to appending),
a successful lookup raises `ValueError`, and any other exception from the
lookup propagates. -/
def Inventario.agregar_producto (inv : Inventario) (producto : PyObj) :
    Except PyErr Inventario :=
  match producto with
  | .other => .error .typeError
  | .prod p =>
    match inv.buscar_producto (.vstr p.nombre) with
    | .error .keyError => .ok ⟨inv.productos ++ [p]⟩
    | .ok _ => .error .valueError
    | .error e => .error e

/-- The method `Inventario.calcular_valor_inventario` (lines 130-132):
Python `sum` is a left fold with start value `0` over the generator of the
products' total values. -/
def Inventario.calcular_valor_inventario (inv : Inventario) : Rat :=
  (inv.productos.map Producto.calcular_valor_total).foldl (· + ·) 0

/-- The method `Inventario.listar_productos` (lines 134-136) in the
by-value model: the sequence of held products, in insertion order.  The
reference-level behaviour of `list(self._productos)` (allocation of a new
list object) is modelled separately by the store-based functions below. -/
def Inventario.listar_productos (inv : Inventario) : List Producto :=
  inv.productos

/-- Heap of Python list objects holding products, for the aliasing claim
about `listar_productos`: each cell is one list object, named by its index. -/
structure Store where
  cells : List (List Producto)
  deriving DecidableEq

/-- Read the list object named `r`. -/
def Store.get (s : Store) (r : Nat) : List Producto :=
  s.cells.getD r []

/-- Overwrite the list object named `r`. -/
def Store.set (s : Store) (r : Nat) (v : List Producto) : Store :=
  ⟨s.cells.set r v⟩

/-- Allocate a fresh list object with contents `v`, returning the new
store and the name of the new object. -/
def Store.alloc (s : Store) (v : List Producto) : Store × Nat :=
  (⟨s.cells ++ [v]⟩, s.cells.length)

/-- An `Inventario` at the reference level: `_productos` is the name of a
list object in the store. -/
structure InventarioRef where
  productosRef : Nat
  deriving DecidableEq

/-- Reference-level `Inventario.listar_productos`: `list(self._productos)`
allocates a fresh list object containing the same products and returns a
reference to it; the internal list object is untouched. -/
def InventarioRef.listar_productos (inv : InventarioRef) (s : Store) :
    Store × Nat :=
  s.alloc (s.get inv.productosRef)

/-- Python `list.append` at the reference level: mutates the list object
named `r` in place. -/
def listAppend (s : Store) (r : Nat) (p : Producto) : Store :=
  s.set r (s.get r ++ [p])

instance {ε α : Type} [DecidableEq ε] [DecidableEq α] : DecidableEq (Except ε α) := fun x y =>
  match x, y with
  | .ok a, .ok b => if h : a = b then .isTrue (by rw [h]) else .isFalse (by simp [h])
  | .error a, .error b => if h : a = b then .isTrue (by rw [h]) else .isFalse (by simp [h])
  | .ok _, .error _ => .isFalse (by simp)
  | .error _, .ok _ => .isFalse (by simp)

/-- Dropping leading whitespace is a no-op on an already stripped
character list. -/
theorem dropWhile_stripChars (l : List Char) :
    (stripChars l).dropWhile Char.isWhitespace = stripChars l := by
  unfold stripChars
  obtain ⟨t, ht⟩ := List.rdropWhile_prefix Char.isWhitespace (l.dropWhile Char.isWhitespace)
  cases hb : (l.dropWhile Char.isWhitespace).rdropWhile Char.isWhitespace with
  | nil => simp
  | cons x xs =>
    rw [hb] at ht
    have hne : l.dropWhile Char.isWhitespace ≠ [] := by
      rw [← ht]; simp
    have hx := List.head_dropWhile_not Char.isWhitespace l hne
    have hhead : (l.dropWhile Char.isWhitespace).head hne = x := by
      simp only [← ht, List.cons_append, List.head_cons]
    rw [hhead] at hx
    simp [List.dropWhile_cons, hx]

/-- Python strip is idempotent (character-list level). -/
theorem stripChars_idem (l : List Char) : stripChars (stripChars l) = stripChars l := by
  show ((stripChars l).dropWhile Char.isWhitespace).rdropWhile Char.isWhitespace = stripChars l
  rw [dropWhile_stripChars]
  show ((l.dropWhile Char.isWhitespace).rdropWhile Char.isWhitespace).rdropWhile
    Char.isWhitespace = stripChars l
  rw [List.rdropWhile_idempotent]
  rfl

/-- Python strip is idempotent. -/
theorem pystrip_idem (s : String) : pystrip (pystrip s) = pystrip s :=
  congrArg String.mk (stripChars_idem s.data)

/-- A product state that the constructor can actually produce: the stored
name is strip-normalized and non-empty.  Every `Producto` object occurring
in a run of the program satisfies this (`Producto.init_valid`). -/
def ValidProducto (p : Producto) : Prop :=
  pystrip p.nombre = p.nombre ∧ p.nombre ≠ ""

instance (p : Producto) : Decidable (ValidProducto p) :=
  inferInstanceAs (Decidable (_ ∧ _))

/-- Characterization of a successful construction with a string name. -/
theorem Producto.init_ok_iff {s : String} {pr c : PyVal} {p : Producto} :
    Producto.init (.vstr s) pr c = .ok p ↔
      pystrip s ≠ "" ∧ ∃ q, PyVal.toNum pr = some q ∧ ¬ q < 0 ∧
        ∃ m, PyVal.toIntVal c = some m ∧ ¬ m < 0 ∧ p = ⟨pystrip s, q, m⟩ := by
  unfold Producto.init
  by_cases h0 : pystrip s = ""
  · simp [h0]
  · cases hq : PyVal.toNum pr with
    | none => simp [h0, hq]
    | some q =>
      by_cases hq0 : q < 0
      · simp [h0, hq, hq0]
      · cases hm : PyVal.toIntVal c with
        | none => simp [h0, hq, hq0, hm]
        | some m =>
          by_cases hm0 : m < 0
          · simp [h0, hq, hq0, hm, hm0]
          · simp [h0, hq, hq0, hm, hm0, eq_comm, not_lt.mp hq0, not_lt.mp hm0]

/-- Every successfully constructed product has a strip-normalized,
non-empty name. -/
theorem Producto.init_valid {n pr c : PyVal} {p : Producto}
    (h : Producto.init n pr c = .ok p) : ValidProducto p := by
  cases n with
  | vstr s =>
    obtain ⟨h0, q, -, -, m, -, -, rfl⟩ := Producto.init_ok_iff.mp h
    exact ⟨pystrip_idem s, h0⟩
  | vint n => simp [Producto.init] at h
  | vfloat q => simp [Producto.init] at h
  | vbool b => simp [Producto.init] at h
  | vother => simp [Producto.init] at h

/-- C1: for every name string with non-empty strip, every non-negative
non-boolean float price and every non-negative non-boolean int quantity,
construction succeeds (storing the stripped name, the price and the
quantity) and the constructed product's total value is exactly
price * quantity. -/
theorem construct_ok_total_value (s : String) (q : Rat) (n : Int)
    (hs : pystrip s ≠ "") (hq : 0 ≤ q) (hn : 0 ≤ n) :
    Producto.init (.vstr s) (.vfloat q) (.vint n) = .ok ⟨pystrip s, q, n⟩ ∧
    Producto.calcular_valor_total ⟨pystrip s, q, n⟩ = q * n :=
  ⟨Producto.init_ok_iff.mpr
      ⟨hs, q, rfl, not_lt.mpr hq, n, rfl, not_lt.mpr hn, rfl⟩,
    rfl⟩

/-- Witness for C1 at name " Pen ", price 3/2, quantity 10. -/
theorem construct_ok_total_value_witness :
    Producto.init (.vstr " Pen ") (.vfloat (mkRat 3 2)) (.vint 10) =
        .ok ⟨"Pen", mkRat 3 2, 10⟩ ∧
    Producto.calcular_valor_total ⟨"Pen", mkRat 3 2, 10⟩ = mkRat 3 2 * 10 := by
  have hps : pystrip " Pen " = "Pen" := by decide
  have h := construct_ok_total_value " Pen " (mkRat 3 2) 10
    (by decide) (by decide) (by decide)
  rw [hps] at h
  exact h

/-- C5: when the arguments have the required kinds (a string name, a
non-boolean numeric price, a non-boolean integer quantity), construction
fails with ValueError whenever the stripped name is empty, the price is
negative or the quantity is negative. -/
theorem construct_invalid_value (s : String) (pr : PyVal) (q : Rat) (m : Int)
    (hq : PyVal.toNum pr = some q)
    (hbad : pystrip s = "" ∨ q < 0 ∨ m < 0) :
    Producto.init (.vstr s) pr (.vint m) = .error .valueError := by
  unfold Producto.init
  by_cases h0 : pystrip s = ""
  · simp [h0]
  · rcases hbad with h | h | h
    · exact absurd h h0
    · simp [h0, hq, h]
    · by_cases hq0 : q < 0
      · simp [h0, hq, hq0]
      · simp [h0, hq, hq0, PyVal.toIntVal, h]

/-- Witness for C5: empty-after-strip name, negative price, negative
quantity each raise ValueError. -/
theorem construct_invalid_value_witness :
    Producto.init (.vstr "  ") (.vfloat 1) (.vint 5) = .error .valueError ∧
    Producto.init (.vstr "Pen") (.vfloat (mkRat (-3) 2)) (.vint 5) =
      .error .valueError ∧
    Producto.init (.vstr "Pen") (.vfloat 1) (.vint (-5)) = .error .valueError :=
  ⟨construct_invalid_value "  " _ 1 5 rfl (.inl (by decide)),
    construct_invalid_value "Pen" _ (mkRat (-3) 2) 5 rfl (.inr (.inl (by decide))),
    construct_invalid_value "Pen" _ 1 (-5) rfl (.inr (.inr (by decide)))⟩

/-- C6 counterexample: constructing with an all-whitespace name and a
boolean price fails with ValueError (raised for the name, which is
validated first), not with TypeError as the claim requires. -/
theorem construct_bool_price_not_typeError :
    Producto.init (.vstr " ") (.vbool true) (.vint 1) = .error .valueError ∧
    PyErr.valueError ≠ PyErr.typeError := by
  decide

/-- C6 amended: a boolean price is rejected with TypeError provided the
name validates; a boolean quantity is rejected with TypeError provided the
name and the price validate; the setters reject a boolean argument with
TypeError unconditionally. -/
theorem bool_never_numeric (s : String) (pr c : PyVal) (b : Bool)
    (q : Rat) (p : Producto) (hs : pystrip s ≠ "") :
    Producto.init (.vstr s) (.vbool b) c = .error .typeError ∧
    (PyVal.toNum pr = some q → ¬ q < 0 →
      Producto.init (.vstr s) pr (.vbool b) = .error .typeError) ∧
    Producto.actualizar_precio p (.vbool b) = (p, some .typeError) ∧
    Producto.actualizar_cantidad p (.vbool b) = (p, some .typeError) := by
  refine ⟨?_, ?_, rfl, rfl⟩
  · unfold Producto.init
    simp [hs, PyVal.toNum]
  · intro hq hq0
    unfold Producto.init
    simp [hs, hq, hq0, PyVal.toIntVal]

/-- Witness for the amended C6 at name "Pen", price 1, boolean true. -/
theorem bool_never_numeric_witness :
    Producto.init (.vstr "Pen") (.vbool true) (.vint 1) = .error .typeError ∧
    Producto.init (.vstr "Pen") (.vfloat 1) (.vbool true) = .error .typeError ∧
    Producto.actualizar_precio ⟨"Pen", 1, 1⟩ (.vbool true) =
      (⟨"Pen", 1, 1⟩, some .typeError) ∧
    Producto.actualizar_cantidad ⟨"Pen", 1, 1⟩ (.vbool true) =
      (⟨"Pen", 1, 1⟩, some .typeError) := by
  obtain ⟨h1, h2, h3, h4⟩ :=
    bool_never_numeric "Pen" (.vfloat 1) (.vint 1) true 1 ⟨"Pen", 1, 1⟩ (by decide)
  exact ⟨h1, h2 rfl (by decide), h3, h4⟩

/-- C7: for a non-boolean numeric argument, actualizar_precio fails with
ValueError when the value is not strictly positive, and otherwise succeeds,
replacing only the stored price with the value as float. -/
theorem set_price_spec (p : Producto) (v : PyVal) (r : Rat)
    (hv : PyVal.toNum v = some r) :
    (r ≤ 0 → Producto.actualizar_precio p v = (p, some .valueError)) ∧
    (0 < r → Producto.actualizar_precio p v = (⟨p.nombre, r, p.cantidad⟩, none)) := by
  constructor
  · intro h
    unfold Producto.actualizar_precio
    simp [hv, h]
  · intro h
    unfold Producto.actualizar_precio
    simp [hv, not_le.mpr h]

/-- Witness for C7: the spec scenario: setting the price to 0 and to -5
fails with ValueError, setting it to 9.99 succeeds. -/
theorem set_price_spec_witness :
    Producto.actualizar_precio ⟨"Pen", 1, 1⟩ (.vfloat 0) =
      (⟨"Pen", 1, 1⟩, some .valueError) ∧
    Producto.actualizar_precio ⟨"Pen", 1, 1⟩ (.vint (-5)) =
      (⟨"Pen", 1, 1⟩, some .valueError) ∧
    Producto.actualizar_precio ⟨"Pen", 1, 1⟩ (.vfloat (mkRat 999 100)) =
      (⟨"Pen", mkRat 999 100, 1⟩, none) :=
  ⟨(set_price_spec ⟨"Pen", 1, 1⟩ (.vfloat 0) 0 rfl).1 (by decide),
    (set_price_spec ⟨"Pen", 1, 1⟩ (.vint (-5)) (((-5 : Int) : Rat)) rfl).1 (by decide),
    (set_price_spec ⟨"Pen", 1, 1⟩ (.vfloat (mkRat 999 100)) (mkRat 999 100) rfl).2
      (by decide)⟩

/-- C10: whenever a setter raises, the product state is completely
unchanged; whenever a setter succeeds, it changes only its own field. -/
theorem setters_atomic (p : Producto) (v : PyVal) :
    ((Producto.actualizar_precio p v).2 ≠ none →
      (Producto.actualizar_precio p v).1 = p) ∧
    ((Producto.actualizar_precio p v).2 = none →
      (Producto.actualizar_precio p v).1.nombre = p.nombre ∧
      (Producto.actualizar_precio p v).1.cantidad = p.cantidad) ∧
    ((Producto.actualizar_cantidad p v).2 ≠ none →
      (Producto.actualizar_cantidad p v).1 = p) ∧
    ((Producto.actualizar_cantidad p v).2 = none →
      (Producto.actualizar_cantidad p v).1.nombre = p.nombre ∧
      (Producto.actualizar_cantidad p v).1.precio = p.precio) := by
  unfold Producto.actualizar_precio Producto.actualizar_cantidad
  refine ⟨?_, ?_, ?_, ?_⟩ <;>
    (cases hv : PyVal.toNum v <;> cases hw : PyVal.toIntVal v <;>
      simp <;> split <;> simp)

/-- Witness for C10 at a failing call (price 0 raises, state unchanged)
and a succeeding call (quantity 7, name and price untouched). -/
theorem setters_atomic_witness :
    (Producto.actualizar_precio ⟨"Pen", 1, 2⟩ (.vfloat 0)).1 = ⟨"Pen", 1, 2⟩ ∧
    (Producto.actualizar_cantidad ⟨"Pen", 1, 2⟩ (.vint 7)).1.nombre = "Pen" ∧
    (Producto.actualizar_cantidad ⟨"Pen", 1, 2⟩ (.vint 7)).1.precio = 1 :=
  ⟨(setters_atomic ⟨"Pen", 1, 2⟩ (.vfloat 0)).1 (by decide),
    ((setters_atomic ⟨"Pen", 1, 2⟩ (.vint 7)).2.2.2 (by decide)).1,
    ((setters_atomic ⟨"Pen", 1, 2⟩ (.vint 7)).2.2.2 (by decide)).2⟩

/-- C3: buscar type-checks its argument, strips it and rejects an empty
result, reports KeyError when no held product matches case-insensitively,
and otherwise returns the first match in insertion order. -/
theorem buscar_spec (inv : Inventario) (v : PyVal) :
    ((∀ s, v ≠ .vstr s) → inv.buscar_producto v = .error .typeError) ∧
    (∀ s, v = .vstr s → pystrip s = "" →
      inv.buscar_producto v = .error .valueError) ∧
    (∀ s, v = .vstr s → pystrip s ≠ "" →
      ((∀ q ∈ inv.productos, pylower q.nombre ≠ pylower (pystrip s)) →
        inv.buscar_producto v = .error .keyError) ∧
      (∀ l1 p l2, inv.productos = l1 ++ p :: l2 →
        pylower p.nombre = pylower (pystrip s) →
        (∀ q ∈ l1, pylower q.nombre ≠ pylower (pystrip s)) →
        inv.buscar_producto v = .ok p)) := by
  refine ⟨?_, ?_, ?_⟩
  · intro h
    cases v with
    | vstr s => exact absurd rfl (h s)
    | vint n => rfl
    | vfloat q => rfl
    | vbool b => rfl
    | vother => rfl
  · intro s hv h0
    subst hv
    unfold Inventario.buscar_producto
    simp [h0]
  · intro s hv hne
    subst hv
    constructor
    · intro hall
      have hf : inv.productos.find?
          (fun r => pylower r.nombre == pylower (pystrip s)) = none := by
        rw [List.find?_eq_none]
        intro x hx
        simpa using hall x hx
      unfold Inventario.buscar_producto
      simp [hne, hf]
    · intro l1 p l2 hdec hp hl1
      have hf : inv.productos.find?
          (fun r => pylower r.nombre == pylower (pystrip s)) = some p := by
        rw [List.find?_eq_some]
        refine ⟨by simpa using hp, l1, l2, hdec, ?_⟩
        intro a ha
        simpa using hl1 a ha
      unfold Inventario.buscar_producto
      simp [hne, hf]

/-- Witness for C3: searching for " widget " in an inventory holding a
product named "Widget" returns that product. -/
theorem buscar_spec_witness :
    Inventario.buscar_producto ⟨[⟨"Widget", 1, 1⟩]⟩ (.vstr " widget ") =
      .ok ⟨"Widget", 1, 1⟩ :=
  ((buscar_spec ⟨[⟨"Widget", 1, 1⟩]⟩ (.vstr " widget ")).2.2 " widget " rfl
      (by decide)).2 [] ⟨"Widget", 1, 1⟩ [] rfl (by decide) (by decide)

/-- C2: agregar rejects a non-Producto argument with TypeError; for a
constructible product argument it fails with ValueError exactly when some
held product has the same name case-insensitively, and otherwise appends
the product at the end, keeping the existing products in order. -/
theorem agregar_spec (inv : Inventario) (obj : PyObj) :
    (obj = .other → inv.agregar_producto obj = .error .typeError) ∧
    (∀ p, obj = .prod p → ValidProducto p →
      ((∃ q ∈ inv.productos, pylower q.nombre = pylower p.nombre) →
        inv.agregar_producto obj = .error .valueError) ∧
      ((∀ q ∈ inv.productos, pylower q.nombre ≠ pylower p.nombre) →
        inv.agregar_producto obj = .ok ⟨inv.productos ++ [p]⟩)) := by
  refine ⟨?_, ?_⟩
  · intro h
    subst h
    rfl
  · rintro p rfl ⟨hstrip, hne⟩
    constructor
    · rintro ⟨q, hq, hql⟩
      have hfs : (inv.productos.find?
          (fun r => pylower r.nombre == pylower (pystrip p.nombre))).isSome := by
        rw [List.find?_isSome]
        exact ⟨q, hq, by simp [hstrip, hql]⟩
      obtain ⟨w, hw⟩ := Option.isSome_iff_exists.mp hfs
      unfold Inventario.agregar_producto Inventario.buscar_producto
      have hne2 : pystrip p.nombre ≠ "" := by
        rw [hstrip]; exact hne
      simp [hne2, hw]
    · intro hall
      have hf : inv.productos.find?
          (fun r => pylower r.nombre == pylower (pystrip p.nombre)) = none := by
        rw [List.find?_eq_none]
        intro x hx
        simp [hstrip]
        simpa using hall x hx
      have hne2 : pystrip p.nombre ≠ "" := by
        rw [hstrip]; exact hne
      unfold Inventario.agregar_producto Inventario.buscar_producto
      simp [hne2, hf]

/-- Witness for C2: adding "WIDGET" to an inventory holding "Widget" fails
with ValueError; adding "Book" to it succeeds and appends. -/
theorem agregar_spec_witness :
    Inventario.agregar_producto ⟨[⟨"Widget", 1, 1⟩]⟩ (.prod ⟨"WIDGET", 2, 2⟩) =
      .error .valueError ∧
    Inventario.agregar_producto ⟨[⟨"Widget", 1, 1⟩]⟩ (.prod ⟨"Book", 2, 2⟩) =
      .ok ⟨[⟨"Widget", 1, 1⟩, ⟨"Book", 2, 2⟩]⟩ :=
  ⟨((agregar_spec ⟨[⟨"Widget", 1, 1⟩]⟩ (.prod ⟨"WIDGET", 2, 2⟩)).2 ⟨"WIDGET", 2, 2⟩
      rfl (by decide)).1 ⟨⟨"Widget", 1, 1⟩, by decide, by decide⟩,
    ((agregar_spec ⟨[⟨"Widget", 1, 1⟩]⟩ (.prod ⟨"Book", 2, 2⟩)).2 ⟨"Book", 2, 2⟩
      rfl (by decide)).2 (by decide)⟩

/-- Inversion of a successful agregar: the argument product was appended
at the end and no held product matched its (stripped) name
case-insensitively. -/
theorem agregar_ok_inversion {inv inv2 : Inventario} {p : Producto}
    (h : inv.agregar_producto (.prod p) = .ok inv2) :
    inv2 = ⟨inv.productos ++ [p]⟩ ∧
    ∀ q ∈ inv.productos, pylower q.nombre ≠ pylower (pystrip p.nombre) := by
  unfold Inventario.agregar_producto Inventario.buscar_producto at h
  by_cases h0 : pystrip p.nombre = ""
  · simp [h0] at h
  · cases hf : inv.productos.find?
        (fun r => pylower r.nombre == pylower (pystrip p.nombre)) with
    | some w => simp [h0, hf] at h
    | none =>
      simp [h0, hf] at h
      refine ⟨?_, ?_⟩
      · cases inv2
        simp_all
      · intro q hq
        simpa using List.find?_eq_none.mp hf q hq

/-- Inventory states reachable from a fresh empty inventory by the
program's operations.  Only a successful agregar_producto of a
successfully constructed product changes the state; buscar_producto,
calcular_valor_inventario and listar_productos read the state without
modifying it, and a failed operation leaves it unchanged. -/
inductive ReachableInv : Inventario → Prop where
  | empty : ReachableInv ⟨[]⟩
  | add (inv inv2 : Inventario) (n pr c : PyVal) (p : Producto) :
      ReachableInv inv →
      Producto.init n pr c = .ok p →
      inv.agregar_producto (.prod p) = .ok inv2 →
      ReachableInv inv2

/-- C4: in every reachable inventory state, any two distinct held products
have names that differ after lower-casing. -/
theorem reachable_names_unique (inv : Inventario) (h : ReachableInv inv) :
    inv.productos.Pairwise (fun a b => pylower a.nombre ≠ pylower b.nombre) := by
  induction h with
  | empty => simp
  | add inv inv2 n pr c p hr hinit hadd ih =>
    obtain ⟨rfl, hfresh⟩ := agregar_ok_inversion hadd
    obtain ⟨hstrip, -⟩ := Producto.init_valid hinit
    rw [hstrip] at hfresh
    rw [List.pairwise_append]
    refine ⟨ih, by simp, ?_⟩
    intro a ha b hb
    simp only [List.mem_singleton] at hb
    subst hb
    exact hfresh a ha

/-- Witness for C4: the state reached by constructing "Widget" and adding
it to the empty inventory has pairwise distinct lowered names. -/
theorem reachable_names_unique_witness :
    (Inventario.mk [⟨"Widget", 1, 1⟩]).productos.Pairwise
      (fun a b => pylower a.nombre ≠ pylower b.nombre) :=
  reachable_names_unique ⟨[⟨"Widget", 1, 1⟩]⟩
    (ReachableInv.add ⟨[]⟩ ⟨[⟨"Widget", 1, 1⟩]⟩ (.vstr "Widget") (.vfloat 1)
      (.vint 1) ⟨"Widget", 1, 1⟩ ReachableInv.empty (by decide) (by decide))

/-- C8: the inventory total is the sum of the held products' total values,
it is 0 for the empty inventory, and the Pen/Book scenario of the spec
(prices 1.50 and 20.0, quantities 10 and 3, built by two agregar calls on
the empty inventory) totals 75. -/
theorem inventory_total_spec (inv : Inventario) :
    inv.calcular_valor_inventario =
      (inv.productos.map Producto.calcular_valor_total).sum ∧
    Inventario.calcular_valor_inventario ⟨[]⟩ = 0 ∧
    Inventario.agregar_producto ⟨[]⟩ (.prod ⟨"Pen", mkRat 3 2, 10⟩) =
      .ok ⟨[⟨"Pen", mkRat 3 2, 10⟩]⟩ ∧
    Inventario.agregar_producto ⟨[⟨"Pen", mkRat 3 2, 10⟩]⟩
        (.prod ⟨"Book", 20, 3⟩) =
      .ok ⟨[⟨"Pen", mkRat 3 2, 10⟩, ⟨"Book", 20, 3⟩]⟩ ∧
    Inventario.calcular_valor_inventario
      ⟨[⟨"Pen", mkRat 3 2, 10⟩, ⟨"Book", 20, 3⟩]⟩ = 75 := by
  refine ⟨?_, rfl, by decide, by decide, ?_⟩
  · rw [Inventario.calcular_valor_inventario, List.sum_eq_foldl]
  · simp only [Inventario.calcular_valor_inventario, Producto.calcular_valor_total,
      List.map_cons, List.map_nil, List.foldl_cons, List.foldl_nil]
    norm_num [Rat.mkRat_eq_divInt, Rat.divInt_eq_div]

/-- C9: listar_productos returns a reference to a freshly allocated list
object whose contents equal the internal list (same products, insertion
order preserved); the reference differs from the internal one, the
internal list is untouched by the call, and appending to the returned
list leaves the internal list unchanged. -/
theorem listar_snapshot (s : Store) (inv : InventarioRef) (p : Producto)
    (hv : inv.productosRef < s.cells.length) :
    (inv.listar_productos s).1.get (inv.listar_productos s).2 =
      s.get inv.productosRef ∧
    (inv.listar_productos s).2 ≠ inv.productosRef ∧
    (inv.listar_productos s).1.get inv.productosRef = s.get inv.productosRef ∧
    (listAppend (inv.listar_productos s).1 (inv.listar_productos s).2 p).get
      inv.productosRef = s.get inv.productosRef := by
  refine ⟨?_, ?_, ?_, ?_⟩
  · show Store.get ⟨s.cells ++ [s.get inv.productosRef]⟩ s.cells.length = _
    simp [Store.get, List.getElem?_concat_length]
  · exact fun h => absurd (h ▸ hv) (lt_irrefl _)
  · show Store.get ⟨s.cells ++ [s.get inv.productosRef]⟩ inv.productosRef = _
    simp [Store.get, List.getElem?_append_left hv]
  · show Store.get (Store.set ⟨s.cells ++ [s.get inv.productosRef]⟩
      s.cells.length _) inv.productosRef = _
    have hne : s.cells.length ≠ inv.productosRef := fun h => absurd (h ▸ hv) (lt_irrefl _)
    simp [Store.get, Store.set, List.getElem?_set_ne hne,
      List.getElem?_append_left hv]

/-- Witness for C9 on a one-cell store. -/
theorem listar_snapshot_witness :
    (InventarioRef.listar_productos ⟨0⟩ ⟨[[⟨"Pen", 1, 1⟩]]⟩).1.get
        (InventarioRef.listar_productos ⟨0⟩ ⟨[[⟨"Pen", 1, 1⟩]]⟩).2 =
      Store.get ⟨[[⟨"Pen", 1, 1⟩]]⟩ 0 ∧
    (InventarioRef.listar_productos ⟨0⟩ ⟨[[⟨"Pen", 1, 1⟩]]⟩).2 ≠ 0 ∧
    (InventarioRef.listar_productos ⟨0⟩ ⟨[[⟨"Pen", 1, 1⟩]]⟩).1.get 0 =
      Store.get ⟨[[⟨"Pen", 1, 1⟩]]⟩ 0 ∧
    (listAppend (InventarioRef.listar_productos ⟨0⟩ ⟨[[⟨"Pen", 1, 1⟩]]⟩).1
        (InventarioRef.listar_productos ⟨0⟩ ⟨[[⟨"Pen", 1, 1⟩]]⟩).2
        ⟨"Book", 2, 2⟩).get 0 =
      Store.get ⟨[[⟨"Pen", 1, 1⟩]]⟩ 0 :=
  listar_snapshot ⟨[[⟨"Pen", 1, 1⟩]]⟩ ⟨0⟩ ⟨"Book", 2, 2⟩ (by decide)
